import Mathlib

/-!
Shallow embedding of `src/main.rs` (Frontier Outpost): a minimal wgpu/winit
render loop.  Pure data (vertices, indices, surface configuration, pipeline
descriptor) is translated directly; the event-loop closure is translated as a
step function on an explicit loop state.  GPU-side and OS-side calls
(`surface.configure`, `get_current_texture`, `queue.submit`, `present`,
`request_redraw`, the FPS `println!`) are modelled as an effect trace.
Wall-clock instants (`Instant::now` / `elapsed`) are supplied as inputs in a
`RedrawEnv` record: the instants the handler actually reads, plus the instant
at which the handler is entered (which the code never reads).  Times are in
nanoseconds, as in `std::time`; durations use truncated `Nat` subtraction,
matching `Instant::elapsed` on a monotone clock.
-/

namespace FrontierOutpost

/-- Pixel formats are opaque to this program; `surface.get_supported_formats`
returns an adapter-dependent list, of which the code takes element 0. -/
abbrev TextureFormat := Nat

/-- `wgpu::TextureUsages` as used here (only `RENDER_ATTACHMENT` appears). -/
inductive TextureUsage where
  | renderAttachment
  deriving DecidableEq, Repr

/-- `wgpu::PresentMode` (the variants of the wgpu 0.13-era enum). -/
inductive PresentMode where
  | autoVsync
  | autoNoVsync
  | fifo
  | fifoRelaxed
  | immediate
  | mailbox
  deriving DecidableEq, Repr

/-- Whether a present mode caps presentation to vertical sync. -/
def PresentMode.isVsyncCapped : PresentMode → Bool
  | .autoVsync => true
  | .fifo => true
  | .fifoRelaxed => true
  | _ => false

/-- `wgpu::CompositeAlphaMode` (only `Auto` is used). -/
inductive CompositeAlphaMode where
  | auto
  | opaqueAlpha
  | preMultiplied
  | postMultiplied
  | inheritAlpha
  deriving DecidableEq, Repr

/-- `wgpu::SurfaceConfiguration` (src/main.rs lines 92-99). -/
structure SurfaceConfiguration where
  usage : TextureUsage
  format : TextureFormat
  width : Nat
  height : Nat
  present_mode : PresentMode
  alpha_mode : CompositeAlphaMode
  deriving DecidableEq, Repr

/-- `winit::dpi::PhysicalSize<u32>`. -/
structure PhysicalSize where
  width : Nat
  height : Nat
  deriving DecidableEq, Repr

/-- The `Vertex` struct (src/main.rs lines 22-26): one `[f32; 2]` position.
The four vertex values used are exactly representable, so positions are
embedded as rationals. -/
structure Vertex where
  position : ℚ × ℚ
  deriving DecidableEq, Repr

/-- `wgpu::VertexFormat` (only `Float32x2` appears). -/
inductive VertexFormat where
  | float32x2
  deriving DecidableEq, Repr

/-- `wgpu::VertexAttribute`. -/
structure VertexAttribute where
  offset : Nat
  shader_location : Nat
  format : VertexFormat
  deriving DecidableEq, Repr

/-- `wgpu::VertexStepMode`. -/
inductive VertexStepMode where
  | vertex
  | instance'
  deriving DecidableEq, Repr

/-- `wgpu::VertexBufferLayout`. -/
structure VertexBufferLayout where
  array_stride : Nat
  step_mode : VertexStepMode
  attributes : List VertexAttribute
  deriving DecidableEq, Repr

/-- `Vertex::descriptor()` (src/main.rs lines 29-41); `size_of::<Vertex>()`
is 8 bytes (two `f32`). -/
def Vertex.descriptor : VertexBufferLayout :=
  { array_stride := 8
    step_mode := .vertex
    attributes := [{ offset := 0, shader_location := 0, format := .float32x2 }] }

/-- `VERTICES` (src/main.rs lines 44-49): the quad corners, each `f32`
coordinate being exactly plus or minus one half. -/
def VERTICES : List Vertex :=
  [ { position := (mkRat (-1) 2, mkRat (-1) 2) }
  , { position := (mkRat 1 2, mkRat (-1) 2) }
  , { position := (mkRat 1 2, mkRat 1 2) }
  , { position := (mkRat (-1) 2, mkRat 1 2) } ]

/-- `INDICES` (src/main.rs lines 51-54): six `u16` indices. -/
def INDICES : List Nat :=
  [0, 1, 2, 0, 2, 3]

/-- `wgpu::BufferUsages` as used here. -/
inductive BufferUsage where
  | vertex
  | index
  deriving DecidableEq, Repr

/-- Contents of a `create_buffer_init` upload (typed, in place of the
`bytemuck` byte cast). -/
inductive BufferContents where
  | vertices (data : List Vertex)
  | indices (data : List Nat)
  deriving DecidableEq, Repr

/-- A GPU buffer created by `device.create_buffer_init`. -/
structure GpuBuffer where
  contents : BufferContents
  usage : BufferUsage
  deriving DecidableEq, Repr

/-- `vertex_buffer` (src/main.rs lines 80-84). -/
def vertex_buffer : GpuBuffer :=
  { contents := .vertices VERTICES, usage := .vertex }

/-- `index_buffer` (src/main.rs lines 86-90). -/
def index_buffer : GpuBuffer :=
  { contents := .indices INDICES, usage := .index }

/-- `wgpu::Color` with `f64` channels embedded as rationals. -/
structure Color where
  r : ℚ
  g : ℚ
  b : ℚ
  a : ℚ
  deriving DecidableEq, Repr

/-- `wgpu::Color::BLACK`. -/
def Color.BLACK : Color := { r := 0, g := 0, b := 0, a := 1 }

/-- `wgpu::BlendState` (only `REPLACE` appears). -/
inductive BlendState where
  | replace
  deriving DecidableEq, Repr

/-- `wgpu::PrimitiveTopology` (only `TriangleList` appears). -/
inductive PrimitiveTopology where
  | triangleList
  deriving DecidableEq, Repr

/-- `wgpu::FrontFace` (only `Ccw` appears). -/
inductive FrontFace where
  | ccw
  deriving DecidableEq, Repr

/-- `wgpu::Face` (only `Back` appears as the cull mode). -/
inductive Face where
  | back
  deriving DecidableEq, Repr

/-- `wgpu::PolygonMode` (only `Fill` appears). -/
inductive PolygonMode where
  | fill
  deriving DecidableEq, Repr

/-- `wgpu::IndexFormat`. -/
inductive IndexFormat where
  | uint16
  | uint32
  deriving DecidableEq, Repr

/-- The fields of `RenderPipelineDescriptor` this program sets
(src/main.rs lines 122-155). -/
structure RenderPipeline where
  vertex_entry_point : String
  vertex_buffers : List VertexBufferLayout
  fragment_entry_point : String
  target_format : TextureFormat
  target_blend : BlendState
  topology : PrimitiveTopology
  front_face : FrontFace
  cull_mode : Option Face
  polygon_mode : PolygonMode
  deriving DecidableEq, Repr

/-- `wgpu::LoadOp` for the color attachment. -/
inductive LoadOp where
  | clear (color : Color)
  | load
  deriving DecidableEq, Repr

/-- One `RenderPassColorAttachment`'s operations
(src/main.rs lines 182-189). -/
structure ColorAttachmentOps where
  load : LoadOp
  store : Bool
  deriving DecidableEq, Repr

/-- A command recorded into a render pass. -/
inductive RenderCommand where
  | setPipeline (pipeline : RenderPipeline)
  | setVertexBuffer (slot : Nat) (buffer : GpuBuffer)
  | setIndexBuffer (buffer : GpuBuffer) (format : IndexFormat)
  | drawIndexed (idxStart idxEnd : Nat) (base_vertex : Int)
      (instStart instEnd : Nat)
  deriving DecidableEq, Repr

/-- A recorded render pass: descriptor plus command sequence. -/
structure RenderPassRecord where
  color_attachments : List ColorAttachmentOps
  commands : List RenderCommand
  deriving DecidableEq, Repr

/-- Observable side effects of the loop, in program order: OS/GPU calls and
the FPS report line.  `fpsReport` carries the raw counter values printed at
src/main.rs line 168 (`frames` and `frame_time`, the latter in nanoseconds). -/
inductive Effect where
  | requestRedraw
  | surfaceConfigure (config : SurfaceConfiguration)
  | acquire
  | fpsReport (frames : Nat) (frame_time : Nat)
  | submit (passes : List RenderPassRecord)
  | present
  deriving DecidableEq, Repr

/-- `winit::event_loop::ControlFlow` as used here. -/
inductive ControlFlow where
  | poll
  | exit
  deriving DecidableEq, Repr

/-- The mutable state captured by the `event_loop.run` closure:
`config` (lines 92-112), `frame_time`, `last_time`, `frames`
(lines 157-159) and the control flow cell. -/
structure LoopState where
  config : SurfaceConfiguration
  frame_time : Nat
  last_time : Nat
  frames : Nat
  control_flow : ControlFlow
  deriving DecidableEq, Repr

/-- The id of the one window created at src/main.rs lines 61-63
(`window.id()`); window ids are opaque, so an arbitrary fixed value. -/
def windowId : Nat := 0

/-- `Duration::from_secs(1)` in nanoseconds. -/
def oneSecond : Nat := 1000000000

/-- Environment of one `RedrawRequested` dispatch: the result of
`surface.get_current_texture()` (`none` models an acquisition failure, which
the code `unwrap`s) and the wall-clock instants involved.  `tEntry` is when
the handler is entered (acquisition begins); the code never reads it.
`tReport` is the instant read at lines 167/170, `tFrameStart` the
`Instant::now()` of line 174, `tFrameEnd` the instant of line 202. -/
structure RedrawEnv where
  acquire : Option Nat
  tEntry : Nat
  tReport : Nat
  tFrameStart : Nat
  tFrameEnd : Nat
  deriving DecidableEq, Repr

/-- Result of dispatching one event: `state = none` models a panic
(the `unwrap` at src/main.rs line 164 on acquisition failure), which
terminates the process; `effects` are the calls issued before the outcome. -/
structure StepOut where
  state : Option LoopState
  effects : List Effect
  deriving DecidableEq, Repr

/-- Events as matched by the closure at src/main.rs lines 161-210; the
redraw constructor carries its environment. -/
inductive WinEvent where
  | resized (new_size : PhysicalSize)
  | closeRequested
  | otherWindow
  deriving DecidableEq, Repr

/-- Top-level `winit::event::Event` cases the closure distinguishes. -/
inductive EventIn where
  | mainEventsCleared
  | redrawRequested (window_id : Nat) (env : RedrawEnv)
  | windowEvent (window_id : Nat) (event : WinEvent)
  | other
  deriving DecidableEq, Repr

/-- The initial `SurfaceConfiguration` value (src/main.rs lines 92-99),
parameterised by the adapter's supported-format list: `format` is
`surface.get_supported_formats(&adapter)[0]`. -/
def initConfig (supported_formats : List TextureFormat) : SurfaceConfiguration :=
  { usage := .renderAttachment
    format := supported_formats.headD 0
    width := 0
    height := 0
    present_mode := .autoVsync
    alpha_mode := .auto }

/-- The `configure` closure (src/main.rs lines 101-110): writes the new size
into the configuration and calls `surface.configure(device, &config)`
(recorded as an effect). -/
def configure (config : SurfaceConfiguration) (new_size : PhysicalSize) :
    SurfaceConfiguration × List Effect :=
  let config' := { config with width := new_size.width, height := new_size.height }
  (config', [.surfaceConfigure config'])

/-- `render_pipeline` (src/main.rs lines 122-155).  Its color target format
is `config.format` as it stands at pipeline creation, i.e. the startup
value. -/
def render_pipeline (supported_formats : List TextureFormat) : RenderPipeline :=
  { vertex_entry_point := "vertex_main"
    vertex_buffers := [Vertex.descriptor]
    fragment_entry_point := "fragment_main"
    target_format := (initConfig supported_formats).format
    target_blend := .replace
    topology := .triangleList
    front_face := .ccw
    cull_mode := some .back
    polygon_mode := .fill }

/-- The render pass recorded at src/main.rs lines 180-197: one color
attachment clearing to black, then pipeline/vertex/index binds and one
`draw_indexed(0..INDICES.len(), 0, 0..1)`. -/
def recordedPass (supported_formats : List TextureFormat) : RenderPassRecord :=
  { color_attachments := [{ load := .clear Color.BLACK, store := true }]
    commands :=
      [ .setPipeline (render_pipeline supported_formats)
      , .setVertexBuffer 0 vertex_buffer
      , .setIndexBuffer index_buffer .uint16
      , .drawIndexed 0 INDICES.length 0 0 1 ] }

/-- The `RedrawRequested` handler body (src/main.rs lines 164-202), reached
only when the event's window id matches.  Follows the source order:
`get_current_texture().unwrap()` (panic on `none`), the FPS report block,
`frame_start_time := now`, pass recording, submit, present, and finally
`frame_time += frame_start_time.elapsed()`. -/
def redrawBody (supported_formats : List TextureFormat) (s : LoopState)
    (env : RedrawEnv) : StepOut :=
  match env.acquire with
  | none => { state := none, effects := [.acquire] }
  | some _output =>
    let frames := s.frames + 1
    let (frame_time, last_time, frames', reportEffects) :=
      if oneSecond ≤ env.tReport - s.last_time then
        (0, env.tReport, 0, [Effect.fpsReport frames s.frame_time])
      else (s.frame_time, s.last_time, frames, ([] : List Effect))
    { state := some { s with
        frame_time := frame_time + (env.tFrameEnd - env.tFrameStart)
        last_time := last_time
        frames := frames' }
      effects := .acquire :: reportEffects
        ++ [.submit [recordedPass supported_formats], .present] }

/-- One dispatch of the `event_loop.run` closure
(src/main.rs lines 161-210). -/
def eventStep (supported_formats : List TextureFormat) (s : LoopState) :
    EventIn → StepOut
  | .mainEventsCleared => { state := some s, effects := [.requestRedraw] }
  | .redrawRequested window_id env =>
    if window_id = windowId then redrawBody supported_formats s env
    else { state := some s, effects := [] }
  | .windowEvent window_id event =>
    if window_id = windowId then
      match event with
      | .resized new_size =>
        let (config', effects) := configure s.config new_size
        { state := some { s with config := config' }, effects := effects }
      | .closeRequested =>
        { state := some { s with control_flow := .exit }, effects := [] }
      | .otherWindow => { state := some s, effects := [] }
    else { state := some s, effects := [] }
  | .other => { state := some s, effects := [] }

/-- Startup (src/main.rs lines 92-159): build the initial configuration,
call `configure` with `window.inner_size()` before the loop starts, zero the
timing counters, and read `last_time := Instant::now()` (supplied as `t0`). -/
def startup (supported_formats : List TextureFormat)
    (inner_size : PhysicalSize) (t0 : Nat) : LoopState × List Effect :=
  let (config, effects) := configure (initConfig supported_formats) inner_size
  ({ config := config
     frame_time := 0
     last_time := t0
     frames := 0
     control_flow := .poll }, effects)

/-- Drive the loop over a list of incoming events, accumulating effects and
stopping (mid-trace) at a panic. -/
def runEvents (supported_formats : List TextureFormat) :
    LoopState → List EventIn → StepOut
  | s, [] => { state := some s, effects := [] }
  | s, e :: es =>
    let out := eventStep supported_formats s e
    match out.state with
    | none => { state := none, effects := out.effects }
    | some s' =>
      let rest := runEvents supported_formats s' es
      { state := rest.state, effects := out.effects ++ rest.effects }

/-- Select the FPS-report effects of a trace. -/
def isFpsReport : Effect → Bool
  | .fpsReport _ _ => true
  | _ => false

/-- Whether a render command is a draw call. -/
def isDrawCall : RenderCommand → Bool
  | .drawIndexed _ _ _ _ _ => true
  | _ => false

/-- All render passes contained in `submit` effects of a trace, in order. -/
def submittedPasses (effects : List Effect) : List RenderPassRecord :=
  (effects.filterMap fun e =>
    match e with
    | .submit passes => some passes
    | _ => none).flatten

/-- A sample supported-format list for concrete evaluations (one format,
numbered 7). -/
def sampleFormats : List TextureFormat := [7]

/-- The loop state right after startup with an 800 x 600 window and the
clock at 0. -/
def sampleState : LoopState := (startup sampleFormats ⟨800, 600⟩ 0).1

/-- A redraw dispatch whose `get_current_texture` call fails. -/
def envFail : RedrawEnv :=
  { acquire := none, tEntry := 0, tReport := 0, tFrameStart := 0, tFrameEnd := 0 }

/-- A successful redraw at 0.5s: below the reporting interval, with a
recorded span of 1 ms. -/
def envNoReport : RedrawEnv :=
  { acquire := some 1, tEntry := 500000000, tReport := 500000000
    tFrameStart := 500000000, tFrameEnd := 501000000 }

/-- A successful redraw at 1.5s: past the reporting interval, with a
recorded span of 2 ms. -/
def envReport : RedrawEnv :=
  { acquire := some 1, tEntry := 1500000000, tReport := 1500000000
    tFrameStart := 1500000000, tFrameEnd := 1502000000 }

/-- A successful redraw entered at t = 0 whose acquisition takes 1 ms
(`tFrameStart` is read only after acquisition) and whose remaining steps
take 2 ms. -/
def envLatency : RedrawEnv :=
  { acquire := some 1, tEntry := 0, tReport := 0
    tFrameStart := 1000000, tFrameEnd := 3000000 }

/-- `sampleState` with the configured width forced to zero, as after a
resize to `(0, 600)`. -/
def zeroWidthState : LoopState :=
  { sampleState with config := { sampleState.config with width := 0 } }

/-- The loop state after startup at 800 x 600 followed by one resize to
1024 x 768. -/
def resizedTwiceState : LoopState :=
  { config :=
      { usage := .renderAttachment
        format := 7
        width := 1024
        height := 768
        present_mode := .autoVsync
        alpha_mode := .auto }
    frame_time := 0
    last_time := 0
    frames := 0
    control_flow := .poll }

/-! ## Helper lemmas -/

/-- On acquisition failure the redraw handler panics at the `unwrap`
(src/main.rs line 164), after the single acquisition attempt and nothing
else. -/
theorem redrawBody_acquire_none (sf : List TextureFormat) (s : LoopState)
    (env : RedrawEnv) (ha : env.acquire = none) :
    redrawBody sf s env = { state := none, effects := [.acquire] } := by
  unfold redrawBody
  rw [ha]

/-- Successful redraw in the reporting branch (at least one second since
`last_time`). -/
theorem redrawBody_some_report (sf : List TextureFormat) (s : LoopState)
    (env : RedrawEnv) (f : Nat) (ha : env.acquire = some f)
    (hr : oneSecond ≤ env.tReport - s.last_time) :
    redrawBody sf s env =
      { state := some { s with
          frame_time := env.tFrameEnd - env.tFrameStart
          last_time := env.tReport
          frames := 0 }
        effects := [.acquire, .fpsReport (s.frames + 1) s.frame_time,
          .submit [recordedPass sf], .present] } := by
  unfold redrawBody
  rw [ha]
  simp [if_pos hr]

/-- Successful redraw in the non-reporting branch (less than one second
since `last_time`). -/
theorem redrawBody_some_noReport (sf : List TextureFormat) (s : LoopState)
    (env : RedrawEnv) (f : Nat) (ha : env.acquire = some f)
    (hr : ¬ oneSecond ≤ env.tReport - s.last_time) :
    redrawBody sf s env =
      { state := some { s with
          frame_time := s.frame_time + (env.tFrameEnd - env.tFrameStart)
          frames := s.frames + 1 }
        effects := [.acquire, .submit [recordedPass sf], .present] } := by
  unfold redrawBody
  rw [ha]
  simp [if_neg hr]

/-- A redraw for the created window runs the handler body. -/
theorem eventStep_ourRedraw (sf : List TextureFormat) (s : LoopState)
    (env : RedrawEnv) :
    eventStep sf s (.redrawRequested windowId env) = redrawBody sf s env := by
  simp [eventStep]

/-- A resize for the created window calls `configure` with the new size. -/
theorem eventStep_resized (sf : List TextureFormat) (s : LoopState)
    (sz : PhysicalSize) :
    eventStep sf s (.windowEvent windowId (.resized sz)) =
      { state := some { s with
          config := { s.config with width := sz.width, height := sz.height } }
        effects := [.surfaceConfigure
          { s.config with width := sz.width, height := sz.height }] } := rfl

/-- Unfolding of `runEvents` on a resize event for the created window. -/
theorem runEvents_resized_cons (sf : List TextureFormat) (s : LoopState)
    (sz : PhysicalSize) (es : List EventIn) :
    runEvents sf s (.windowEvent windowId (.resized sz) :: es) =
      { state := (runEvents sf { s with
          config := { s.config with width := sz.width, height := sz.height } } es).state
        effects := .surfaceConfigure
            { s.config with width := sz.width, height := sz.height }
          :: (runEvents sf { s with
          config := { s.config with width := sz.width, height := sz.height } } es).effects } := by
  rw [runEvents, eventStep_resized]
  simp

/-- No event dispatch changes the surface configuration's `format`,
`present_mode`, `alpha_mode` or `usage`: only a resize touches the
configuration, and it writes just `width` and `height`. -/
theorem eventStep_config_fields (sf : List TextureFormat) (s : LoopState)
    (e : EventIn) (s' : LoopState)
    (h : (eventStep sf s e).state = some s') :
    s'.config.format = s.config.format ∧
    s'.config.present_mode = s.config.present_mode ∧
    s'.config.alpha_mode = s.config.alpha_mode ∧
    s'.config.usage = s.config.usage := by
  cases e with
  | mainEventsCleared =>
    simp [eventStep] at h
    subst h
    exact ⟨rfl, rfl, rfl, rfl⟩
  | redrawRequested wid env =>
    by_cases hw : wid = windowId
    · subst hw
      rw [eventStep_ourRedraw] at h
      cases ha : env.acquire with
      | none => rw [redrawBody_acquire_none sf s env ha] at h; simp at h
      | some f =>
        by_cases hr : oneSecond ≤ env.tReport - s.last_time
        · rw [redrawBody_some_report sf s env f ha hr] at h
          simp at h
          subst h
          exact ⟨rfl, rfl, rfl, rfl⟩
        · rw [redrawBody_some_noReport sf s env f ha hr] at h
          simp at h
          subst h
          exact ⟨rfl, rfl, rfl, rfl⟩
    · simp [eventStep, hw] at h
      subst h
      exact ⟨rfl, rfl, rfl, rfl⟩
  | windowEvent wid ev =>
    by_cases hw : wid = windowId
    · subst hw
      cases ev with
      | resized sz =>
        rw [eventStep_resized] at h
        simp at h
        subst h
        exact ⟨rfl, rfl, rfl, rfl⟩
      | closeRequested =>
        simp [eventStep] at h
        subst h
        exact ⟨rfl, rfl, rfl, rfl⟩
      | otherWindow =>
        simp [eventStep] at h
        subst h
        exact ⟨rfl, rfl, rfl, rfl⟩
    · simp [eventStep, hw] at h
      subst h
      exact ⟨rfl, rfl, rfl, rfl⟩
  | other =>
    simp [eventStep] at h
    subst h
    exact ⟨rfl, rfl, rfl, rfl⟩

/-- Run-level version of `eventStep_config_fields`. -/
theorem runEvents_config_fields (sf : List TextureFormat) (s : LoopState)
    (es : List EventIn) (s' : LoopState)
    (h : (runEvents sf s es).state = some s') :
    s'.config.format = s.config.format ∧
    s'.config.present_mode = s.config.present_mode ∧
    s'.config.alpha_mode = s.config.alpha_mode ∧
    s'.config.usage = s.config.usage := by
  induction es generalizing s with
  | nil =>
    simp [runEvents] at h
    subst h
    exact ⟨rfl, rfl, rfl, rfl⟩
  | cons e es ih =>
    rw [runEvents] at h
    cases ho : (eventStep sf s e).state with
    | none => rw [ho] at h; simp at h
    | some s1 =>
      rw [ho] at h
      simp only at h
      obtain ⟨g1, g2, g3, g4⟩ := eventStep_config_fields sf s e s1 ho
      obtain ⟨k1, k2, k3, k4⟩ := ih s1 h
      exact ⟨k1.trans g1, k2.trans g2, k3.trans g3, k4.trans g4⟩

/-! ## Claim C1 -/

/-- Claim C1 is false on the code: at a concrete startup state, a redraw
whose frame acquisition fails makes the loop panic (the `unwrap` at
src/main.rs line 164), terminating the application.  The trace is exactly
one acquisition attempt: no reconfiguration of the surface, no retry, no
submission, no present. -/
theorem C1_counterexample :
    (eventStep sampleFormats sampleState (.redrawRequested windowId envFail)).state
        = none ∧
    (eventStep sampleFormats sampleState (.redrawRequested windowId envFail)).effects
        = [Effect.acquire] := by
  decide

/-- Claim C1 as amended: for every redraw in which frame acquisition fails,
the handler panics and the application terminates; there is no surface
reconfiguration, no retry, no command submission, no present and no timer
update — the trace holds the single failed acquisition attempt. -/
theorem C1_acquire_failure_panics (sf : List TextureFormat) (s : LoopState)
    (env : RedrawEnv) (ha : env.acquire = none) :
    eventStep sf s (.redrawRequested windowId env) =
      { state := none, effects := [Effect.acquire] } := by
  rw [eventStep_ourRedraw, redrawBody_acquire_none sf s env ha]

/-- Concrete instance of `C1_acquire_failure_panics`. -/
theorem C1_witness :
    eventStep sampleFormats sampleState (.redrawRequested windowId envFail) =
      { state := none, effects := [Effect.acquire] } :=
  C1_acquire_failure_panics sampleFormats sampleState envFail rfl

/-! ## Claim C2 -/

/-- Claim C2 is false on the code: after a resize to width 0, the very next
redraw still acquires a frame, submits commands and presents — the trace of
the two-event run is the zero-size reconfiguration followed by a full
acquire/submit/present cycle.  Rendering is not suspended. -/
theorem C2_counterexample :
    (runEvents sampleFormats sampleState
        [.windowEvent windowId (.resized ⟨0, 300⟩),
         .redrawRequested windowId envNoReport]).effects =
      [ Effect.surfaceConfigure
          { usage := .renderAttachment, format := 7, width := 0, height := 300
            present_mode := .autoVsync, alpha_mode := .auto }
      , Effect.acquire
      , Effect.submit [recordedPass sampleFormats]
      , Effect.present ] := by
  decide

/-- Claim C2 as amended: a resize with zero width or height does not
suspend rendering; the redraw handler never inspects the configured size,
so any redraw whose acquisition succeeds still acquires, submits and
presents even while a dimension is zero. -/
theorem C2_zero_size_still_renders (sf : List TextureFormat) (s : LoopState)
    (env : RedrawEnv) (f : Nat)
    (_hz : s.config.width = 0 ∨ s.config.height = 0) (ha : env.acquire = some f) :
    Effect.acquire ∈ (eventStep sf s (.redrawRequested windowId env)).effects ∧
    Effect.submit [recordedPass sf]
      ∈ (eventStep sf s (.redrawRequested windowId env)).effects ∧
    Effect.present ∈ (eventStep sf s (.redrawRequested windowId env)).effects := by
  rw [eventStep_ourRedraw]
  by_cases hr : oneSecond ≤ env.tReport - s.last_time
  · rw [redrawBody_some_report sf s env f ha hr]
    exact ⟨by simp, by simp, by simp⟩
  · rw [redrawBody_some_noReport sf s env f ha hr]
    exact ⟨by simp, by simp, by simp⟩

/-- Concrete instance of `C2_zero_size_still_renders`. -/
theorem C2_witness :
    Effect.acquire ∈ (eventStep sampleFormats zeroWidthState
      (.redrawRequested windowId envNoReport)).effects :=
  (C2_zero_size_still_renders sampleFormats zeroWidthState envNoReport 1
    (Or.inl rfl) rfl).1

/-! ## Claim C3 -/

/-- Claim C3 is false on the code: `frame_start_time` is read only at
src/main.rs line 174, after `get_current_texture` returns, so the duration
added to `frame_time` excludes the acquisition latency.  Concretely, for a
redraw entered at t = 0 whose acquisition completes at t = 1 ms and whose
present finishes at t = 3 ms, the recorded duration is 2 ms while the
wall-clock duration of steps 1-4 is 3 ms. -/
theorem C3_counterexample :
    ((eventStep sampleFormats sampleState
        (.redrawRequested windowId envLatency)).state.map LoopState.frame_time)
      = some 2000000 ∧
    envLatency.tFrameEnd - envLatency.tEntry = 3000000 ∧
    (2000000 : Nat) ≠ 3000000 := by
  decide

/-- Claim C3 as amended: for every rendered frame, the duration added to
the frame timer is `tFrameEnd - tFrameStart`, the wall-clock span from
after frame acquisition (and after the FPS-report block) through command
recording, submission and presentation; acquisition latency is excluded. -/
theorem C3_recorded_duration (sf : List TextureFormat) (s : LoopState)
    (env : RedrawEnv) (f : Nat) (ha : env.acquire = some f) :
    ((eventStep sf s (.redrawRequested windowId env)).state.map
        LoopState.frame_time) =
      some ((if oneSecond ≤ env.tReport - s.last_time then 0 else s.frame_time)
        + (env.tFrameEnd - env.tFrameStart)) := by
  rw [eventStep_ourRedraw]
  by_cases hr : oneSecond ≤ env.tReport - s.last_time
  · rw [redrawBody_some_report sf s env f ha hr, if_pos hr]
    simp
  · rw [redrawBody_some_noReport sf s env f ha hr, if_neg hr]
    simp

/-- Concrete instance of `C3_recorded_duration`. -/
theorem C3_witness :
    ((eventStep sampleFormats sampleState
        (.redrawRequested windowId envLatency)).state.map LoopState.frame_time) =
      some ((if oneSecond ≤ envLatency.tReport - sampleState.last_time
          then 0 else sampleState.frame_time)
        + (envLatency.tFrameEnd - envLatency.tFrameStart)) :=
  C3_recorded_duration sampleFormats sampleState envLatency 1 rfl

/-! ## Claim C4 -/

/-- Claim C4 is false on the code: `frames` is incremented before the
report (src/main.rs line 166) but the current frame's duration is added to
`frame_time` only after it (line 202).  In a concrete two-redraw run whose
second redraw triggers the report, the emitted sample counts 2 frames since
the last reset while its accumulated duration, 1 ms, is only the first
frame's; the sum of those same two frames' recorded durations is 3 ms. -/
theorem C4_counterexample :
    ((runEvents sampleFormats sampleState
        [.redrawRequested windowId envNoReport,
         .redrawRequested windowId envReport]).effects.filter isFpsReport) =
      [Effect.fpsReport 2 1000000] ∧
    (envNoReport.tFrameEnd - envNoReport.tFrameStart)
      + (envReport.tFrameEnd - envReport.tFrameStart) = 3000000 ∧
    (1000000 : Nat) ≠ 3000000 := by
  decide

/-- Claim C4 as amended: a redraw emits a sample iff at least one second
has elapsed since the interval start (so at most one sample per elapsed
interval, since emission resets the interval start to the report instant);
the sample is `(frames + 1, frame_time)` where `frames + 1` counts the
redraws handled since the last reset including the triggering one, while
`frame_time` sums the durations of those redraws excluding the triggering
one; emission zeroes the frame count, and the accumulator restarts with the
triggering frame's own duration. -/
theorem C4_report_characterization (sf : List TextureFormat) (s : LoopState)
    (env : RedrawEnv) (f : Nat) (ha : env.acquire = some f) :
    (eventStep sf s (.redrawRequested windowId env)).effects.filter isFpsReport =
      (if oneSecond ≤ env.tReport - s.last_time
        then [Effect.fpsReport (s.frames + 1) s.frame_time] else []) ∧
    (eventStep sf s (.redrawRequested windowId env)).state =
      some (if oneSecond ≤ env.tReport - s.last_time
        then { s with
               frame_time := env.tFrameEnd - env.tFrameStart
               last_time := env.tReport
               frames := 0 }
        else { s with
               frame_time := s.frame_time + (env.tFrameEnd - env.tFrameStart)
               frames := s.frames + 1 }) := by
  rw [eventStep_ourRedraw]
  by_cases hr : oneSecond ≤ env.tReport - s.last_time
  · rw [redrawBody_some_report sf s env f ha hr]
    simp [hr, isFpsReport]
  · rw [redrawBody_some_noReport sf s env f ha hr]
    simp [hr, isFpsReport]

/-- Concrete instance of `C4_report_characterization`. -/
theorem C4_witness :
    (eventStep sampleFormats sampleState
        (.redrawRequested windowId envReport)).effects.filter isFpsReport =
      (if oneSecond ≤ envReport.tReport - sampleState.last_time
        then [Effect.fpsReport (sampleState.frames + 1) sampleState.frame_time]
        else []) :=
  (C4_report_characterization sampleFormats sampleState envReport 1 rfl).1

/-! ## Claim C5 -/

/-- Claim C5: for every sequence of resize events with nonzero dimensions,
after processing the last event the surface's configured width and height
equal exactly that last event's dimensions (the `configure` closure
overwrites both fields unconditionally from the event's size). -/
theorem C5_last_resize_wins (sf : List TextureFormat) (s : LoopState)
    (earlier : List PhysicalSize) (lastSize : PhysicalSize) (s' : LoopState)
    (hnz : ∀ sz ∈ earlier ++ [lastSize], sz.width ≠ 0 ∧ sz.height ≠ 0)
    (h : (runEvents sf s ((earlier ++ [lastSize]).map
        fun sz => EventIn.windowEvent windowId (.resized sz))).state = some s') :
    s'.config.width = lastSize.width ∧ s'.config.height = lastSize.height := by
  induction earlier generalizing s with
  | nil =>
    rw [List.nil_append, List.map_cons, List.map_nil,
      runEvents_resized_cons] at h
    dsimp only at h
    rw [runEvents] at h
    simp at h
    subst h
    exact ⟨rfl, rfl⟩
  | cons sz rest ih =>
    rw [List.cons_append, List.map_cons, runEvents_resized_cons] at h
    dsimp only at h
    exact ih _ (fun z hz => hnz z (List.mem_cons_of_mem _ hz)) h

/-- Concrete instance of `C5_last_resize_wins`. -/
theorem C5_witness :
    resizedTwiceState.config.width = 1024 ∧
    resizedTwiceState.config.height = 768 :=
  C5_last_resize_wins sampleFormats sampleState [⟨800, 600⟩] ⟨1024, 768⟩
    resizedTwiceState (by decide) (by decide)

/-! ## Claim C6 -/

/-- Claim C6: every rendered frame submits exactly one render pass, which
clears its single color target to black, binds the pipeline, the vertex
buffer (slot 0) and the 16-bit index buffer, and issues exactly one indexed
draw over index range [0, 6) and instance range [0, 1); the geometry is the
4-vertex quad with indices 0,1,2,0,2,3. -/
theorem C6_render_pass (sf : List TextureFormat) (s : LoopState)
    (env : RedrawEnv) (f : Nat) (ha : env.acquire = some f) :
    submittedPasses (eventStep sf s
        (.redrawRequested windowId env)).effects = [recordedPass sf] ∧
    (recordedPass sf).color_attachments =
      [{ load := .clear Color.BLACK, store := true }] ∧
    (recordedPass sf).commands =
      [ .setPipeline (render_pipeline sf)
      , .setVertexBuffer 0 vertex_buffer
      , .setIndexBuffer index_buffer .uint16
      , .drawIndexed 0 INDICES.length 0 0 1 ] ∧
    (recordedPass sf).commands.filter isDrawCall = [.drawIndexed 0 6 0 0 1] ∧
    INDICES = [0, 1, 2, 0, 2, 3] ∧
    VERTICES.length = 4 ∧
    INDICES.length = 6 ∧
    vertex_buffer.contents = .vertices VERTICES ∧
    index_buffer.contents = .indices INDICES := by
  refine ⟨?_, rfl, rfl, rfl, rfl, rfl, rfl, rfl, rfl⟩
  rw [eventStep_ourRedraw]
  by_cases hr : oneSecond ≤ env.tReport - s.last_time
  · rw [redrawBody_some_report sf s env f ha hr]; rfl
  · rw [redrawBody_some_noReport sf s env f ha hr]; rfl

/-- Concrete instance of `C6_render_pass`. -/
theorem C6_witness :
    submittedPasses (eventStep sampleFormats sampleState
        (.redrawRequested windowId envNoReport)).effects =
      [recordedPass sampleFormats] :=
  (C6_render_pass sampleFormats sampleState envNoReport 1 rfl).1

/-! ## Claim C7 -/

/-- Claim C7: `configure` writes the requested pixel dimensions into the
surface configuration, whose format is the first supported color format,
whose present mode is the vertical-sync-capped `AutoVsync` and whose alpha
mode is `Auto`; it is invoked once at startup (before the first frame, the
lone startup effect) and again by every resize event for the window. -/
theorem C7_configure_policy (sf : List TextureFormat) (hsf : sf ≠ [])
    (c : SurfaceConfiguration) (sz sz0 : PhysicalSize) (t0 : Nat)
    (s : LoopState) :
    (configure c sz).1.width = sz.width ∧
    (configure c sz).1.height = sz.height ∧
    (initConfig sf).format = sf.head hsf ∧
    (initConfig sf).present_mode = PresentMode.autoVsync ∧
    (initConfig sf).present_mode.isVsyncCapped = true ∧
    (initConfig sf).alpha_mode = CompositeAlphaMode.auto ∧
    (startup sf sz0 t0).2 =
      [Effect.surfaceConfigure (startup sf sz0 t0).1.config] ∧
    (startup sf sz0 t0).1.config.width = sz0.width ∧
    (startup sf sz0 t0).1.config.height = sz0.height ∧
    eventStep sf s (.windowEvent windowId (.resized sz)) =
      { state := some { s with config := (configure s.config sz).1 }
        effects := (configure s.config sz).2 } := by
  refine ⟨rfl, rfl, ?_, rfl, rfl, rfl, rfl, rfl, rfl, rfl⟩
  cases sf with
  | nil => exact absurd rfl hsf
  | cons a l => rfl

/-- Concrete instance of `C7_configure_policy`. -/
theorem C7_witness :
    (configure (initConfig sampleFormats) ⟨1024, 768⟩).1.width = 1024 :=
  (C7_configure_policy sampleFormats (by decide) (initConfig sampleFormats)
    ⟨1024, 768⟩ ⟨800, 600⟩ 0 sampleState).1

/-! ## Claim C8 -/

/-- Claim C8: every value in the index data is strictly less than the
vertex count — all six indices 0,1,2,0,2,3 are below 4 — so the caller-side
invariant holds by construction of the constant data, before any draw call
is submitted. -/
theorem C8_indices_in_range (i : Nat) (hi : i ∈ INDICES) :
    i < VERTICES.length := by
  have h : INDICES.all (fun x => decide (x < VERTICES.length)) = true := by
    decide
  rw [List.all_eq_true] at h
  exact of_decide_eq_true (h i hi)

/-- Concrete instance of `C8_indices_in_range`. -/
theorem C8_witness : (3 : Nat) < VERTICES.length :=
  C8_indices_in_range 3 (by decide)

/-! ## Claim C9 -/

/-- Claim C9: `configure` mutates only the width and height fields, so in
every run from startup the configuration's format, present mode, alpha mode
and usage keep their startup values, and in particular the pipeline's color
target format equals the surface's configured format for the entire run. -/
theorem C9_config_fields_constant (sf : List TextureFormat)
    (sz0 : PhysicalSize) (t0 : Nat) (es : List EventIn) (s' : LoopState)
    (c : SurfaceConfiguration) (sz : PhysicalSize)
    (h : (runEvents sf (startup sf sz0 t0).1 es).state = some s') :
    s'.config.format = (render_pipeline sf).target_format ∧
    s'.config.present_mode = PresentMode.autoVsync ∧
    s'.config.alpha_mode = CompositeAlphaMode.auto ∧
    s'.config.usage = TextureUsage.renderAttachment ∧
    (configure c sz).1 = { c with width := sz.width, height := sz.height } := by
  obtain ⟨h1, h2, h3, h4⟩ :=
    runEvents_config_fields sf (startup sf sz0 t0).1 es s' h
  exact ⟨h1.trans rfl, h2.trans rfl, h3.trans rfl, h4.trans rfl, rfl⟩

/-- Concrete instance of `C9_config_fields_constant`. -/
theorem C9_witness :
    resizedTwiceState.config.format =
      (render_pipeline sampleFormats).target_format :=
  (C9_config_fields_constant sampleFormats ⟨800, 600⟩ 0
    [.windowEvent windowId (.resized ⟨1024, 768⟩)]
    resizedTwiceState (initConfig sampleFormats) ⟨5, 5⟩ (by decide)).1

/-! ## Claim C10 -/

/-- Claim C10: a redraw or window event carrying a window id other than the
created window's id is a no-op — the state is unchanged and no effect (no
acquisition, submission, present, reconfiguration or timer update) is
produced. -/
theorem C10_foreign_window_noop (sf : List TextureFormat) (s : LoopState)
    (wid : Nat) (env : RedrawEnv) (we : WinEvent) (hw : wid ≠ windowId) :
    eventStep sf s (.redrawRequested wid env) =
      { state := some s, effects := [] } ∧
    eventStep sf s (.windowEvent wid we) =
      { state := some s, effects := [] } := by
  constructor
  · simp [eventStep, hw]
  · simp [eventStep, hw]

/-- Concrete instance of `C10_foreign_window_noop`. -/
theorem C10_witness :
    eventStep sampleFormats sampleState (.redrawRequested 1 envFail) =
      { state := some sampleState, effects := [] } :=
  (C10_foreign_window_noop sampleFormats sampleState 1 envFail
    (.resized ⟨5, 5⟩) (by decide)).1

end FrontierOutpost
